import Mathlib

/-!
Formal model of the espflash flasher module (src/espflash/src/flasher.rs).

The Rust code is shallowly embedded: machine integers (u8/u32/usize) become
Nat, with explicit `% 256` / `% 2^32` only where the source can overflow or
truncate; `Result<T, Error>` becomes `Except Error T`; serial traffic is
modelled by oracles (functions from a read index to the value or frame the
device returns) and by explicit write traces.
-/

namespace Espflash

/-- Constant MAX_RAM_BLOCK_SIZE from flasher.rs. -/
def MAX_RAM_BLOCK_SIZE : Nat := 0x1800

/-- Constant FLASH_SECTOR_SIZE from flasher.rs. -/
def FLASH_SECTOR_SIZE : Nat := 0x1000

/-- Constant FLASH_BLOCK_SIZE from flasher.rs. -/
def FLASH_BLOCK_SIZE : Nat := 0x100

/-- Constant FLASH_SECTORS_PER_BLOCK = FLASH_SECTOR_SIZE / FLASH_BLOCK_SIZE. -/
def FLASH_SECTORS_PER_BLOCK : Nat := FLASH_SECTOR_SIZE / FLASH_BLOCK_SIZE

/-- Constant FLASH_WRITE_SIZE from flasher.rs. -/
def FLASH_WRITE_SIZE : Nat := 0x400

/-- Timeout constants from flasher.rs, in milliseconds (Duration is modelled
by its millisecond count). -/
def DEFAULT_TIMEOUT_MS : Nat := 3000

/-- ERASE_REGION_TIMEOUT_PER_MB = 30 s, in milliseconds. -/
def ERASE_REGION_TIMEOUT_PER_MB_MS : Nat := 30000

/-- ERASE_WRITE_TIMEOUT_PER_MB = 40 s, in milliseconds. -/
def ERASE_WRITE_TIMEOUT_PER_MB_MS : Nat := 40000

/-- MEM_END_TIMEOUT = 50 ms. -/
def MEM_END_TIMEOUT_MS : Nat := 50

/-- SYNC_TIMEOUT = 100 ms. -/
def SYNC_TIMEOUT_MS : Nat := 100

/-- The Error enum of the crate (crate::Error), restricted to the variants
the flasher module constructs or the claims mention. Payload-carrying
variants keep their byte payloads as Nat. -/
inductive Error where
  | Timeout
  | ConnectionFailed
  | UnrecognizedChip
  | UnsupportedFlash (code : Nat)
  | RomError (code : Nat)
  | InvalidElf
  | ElfNotRamLoadable
deriving DecidableEq, Repr

/-- The Command enum from flasher.rs. -/
inductive Command where
  | FlashBegin
  | FlashData
  | FlashEnd
  | MemBegin
  | MemEnd
  | MemData
  | Sync
  | WriteReg
  | ReadReg
  | SpiSetParams
  | SpiAttach
  | ChangeBaud
deriving DecidableEq, Repr

/-- The repr(u8) discriminant of each Command variant (`Command::X as u8`). -/
def Command.opcode : Command → Nat
  | .FlashBegin => 0x02
  | .FlashData => 0x03
  | .FlashEnd => 0x04
  | .MemBegin => 0x05
  | .MemEnd => 0x06
  | .MemData => 0x07
  | .Sync => 0x08
  | .WriteReg => 0x09
  | .ReadReg => 0x0a
  | .SpiSetParams => 0x0B
  | .SpiAttach => 0x0D
  | .ChangeBaud => 0x0F

/-- Command::timeout from flasher.rs (milliseconds). -/
def Command.timeout : Command → Nat
  | .MemEnd => MEM_END_TIMEOUT_MS
  | .Sync => SYNC_TIMEOUT_MS
  | _ => DEFAULT_TIMEOUT_MS

/-- The nested calc_timeout helper inside Command::timeout_for_size.
The source computes `(timeout_per_mb.as_millis() as f64 * (size as f64 /
1_000_000.0)) as u64` and takes the max with DEFAULT_TIMEOUT. The f64
product is modelled by exact integer arithmetic truncated toward zero
(`timeout_per_mb_ms * size / 1000000`); at the sizes the claims evaluate
(multiples of 1_000_000) the f64 computation is exact, and the max with the
default timeout is outside the floating-point computation in the source. -/
def calc_timeout (timeout_per_mb_ms size : Nat) : Nat :=
  max DEFAULT_TIMEOUT_MS (timeout_per_mb_ms * size / 1000000)

/-- Command::timeout_for_size from flasher.rs (milliseconds). -/
def Command.timeout_for_size (c : Command) (size : Nat) : Nat :=
  match c with
  | .FlashBegin => calc_timeout ERASE_REGION_TIMEOUT_PER_MB_MS size
  | .FlashData => calc_timeout ERASE_WRITE_TIMEOUT_PER_MB_MS size
  | _ => c.timeout

/-- The FlashSize enum from flasher.rs. -/
inductive FlashSize where
  | Flash256Kb
  | Flash512Kb
  | Flash1Mb
  | Flash2Mb
  | Flash4Mb
  | Flash8Mb
  | Flash16Mb
  | FlashRetry
deriving DecidableEq, Repr

/-- FlashSize::from(value: u8) from flasher.rs. The Rust match on a u8 is
modelled as a chain of equality tests on the byte (the source name `from`
is a Lean keyword, hence `fromByte`). -/
def FlashSize.fromByte (value : Nat) : Except Error FlashSize :=
  if value = 0x12 then .ok .Flash256Kb
  else if value = 0x13 then .ok .Flash512Kb
  else if value = 0x14 then .ok .Flash1Mb
  else if value = 0x15 then .ok .Flash2Mb
  else if value = 0x16 then .ok .Flash4Mb
  else if value = 0x17 then .ok .Flash8Mb
  else if value = 0x18 then .ok .Flash16Mb
  else if value = 0xFF then .ok .FlashRetry
  else .error (.UnsupportedFlash value)

/-- The SpiAttachParams struct from flasher.rs; the five fields are u8 in
the source. -/
structure SpiAttachParams where
  clk : Nat
  q : Nat
  d : Nat
  hd : Nat
  cs : Nat
deriving DecidableEq, Repr

/-- SpiAttachParams::default(). -/
def SpiAttachParams.default : SpiAttachParams := ⟨0, 0, 0, 0, 0⟩

/-- SpiAttachParams::esp32_pico_d4(). -/
def SpiAttachParams.esp32_pico_d4 : SpiAttachParams := ⟨6, 17, 8, 11, 16⟩

/-- u32::to_le_bytes, as a list of four byte values. -/
def u32_le_bytes (x : Nat) : List Nat :=
  [x % 256, x / 256 % 256, x / 65536 % 256, x / 16777216 % 256]

/-- SpiAttachParams::encode from flasher.rs. Since every field is a u8,
none of the shifted fields reaches 2^32, so the u32 arithmetic of the
source never wraps and is modelled on Nat directly. -/
def SpiAttachParams.encode (p : SpiAttachParams) : List Nat :=
  let packed := (p.hd <<< 24) ||| (p.cs <<< 18) ||| (p.d <<< 12) ||| (p.q <<< 6) ||| p.clk
  if packed = 0 then List.replicate 5 0 else u32_le_bytes packed

/-- TRY_SPI_PARAMS from flasher.rs. -/
def TRY_SPI_PARAMS : List SpiAttachParams :=
  [SpiAttachParams.default, SpiAttachParams.esp32_pico_d4]

/-- get_erase_size from flasher.rs (both arguments are usize). -/
def get_erase_size (offset size : Nat) : Nat :=
  let sector_count := (size + FLASH_SECTOR_SIZE - 1) / FLASH_SECTOR_SIZE
  let start_sector := offset / FLASH_SECTOR_SIZE
  let head_sectors :=
    min (FLASH_SECTORS_PER_BLOCK - start_sector % FLASH_SECTORS_PER_BLOCK) sector_count
  if sector_count < 2 * head_sectors then
    (sector_count + 1) / 2 * FLASH_SECTOR_SIZE
  else
    (sector_count - head_sectors) * FLASH_SECTOR_SIZE

/-- CHECKSUM_INIT from flasher.rs. -/
def CHECKSUM_INIT : Nat := 0xEF

/-- The checksum function from flasher.rs: XOR-fold the data bytes onto the
running checksum. u8 XOR never overflows, so Nat XOR is exact. -/
def checksum (data : List Nat) (c : Nat) : Nat :=
  data.foldl (fun acc byte => acc ^^^ byte) c

/-- The padding loop in Flasher::block_command:
`for _ in 0..padding { check = checksum(&[padding_byte], check) }`. -/
def pad_checksum : Nat → Nat → Nat → Nat
  | 0, _, c => c
  | k + 1, padding_byte, c => pad_checksum k padding_byte (checksum [padding_byte] c)

/-- The checksum word Flasher::block_command passes to connection.command
for a *_DATA packet (the `check as u32` widening is the identity on the
byte-sized value). -/
def block_command_checksum (data : List Nat) (padding : Nat) (padding_byte : Nat) : Nat :=
  pad_checksum padding padding_byte (checksum data CHECKSUM_INIT)

theorem checksum_eq_xor (data : List Nat) :
    ∀ c : Nat, checksum data c = c ^^^ checksum data 0 := by
  induction data with
  | nil => intro c; simp [checksum]
  | cons b t ih =>
    intro c
    show checksum t (c ^^^ b) = c ^^^ checksum t (0 ^^^ b)
    rw [ih (c ^^^ b), ih (0 ^^^ b), Nat.zero_xor, Nat.xor_assoc]

theorem pad_checksum_eq_xor (p : Nat) :
    ∀ (k c : Nat), pad_checksum k p c = c ^^^ (if k % 2 = 1 then p else 0) := by
  intro k
  induction k with
  | zero => intro c; simp [pad_checksum]
  | succ k ih =>
    intro c
    show pad_checksum k p (checksum [p] c) = _
    have hc : checksum [p] c = c ^^^ p := rfl
    rw [hc, ih (c ^^^ p)]
    rcases Nat.mod_two_eq_zero_or_one k with h | h
    · have h1 : (k + 1) % 2 = 1 := by omega
      simp [h, h1]
    · have h1 : (k + 1) % 2 = 0 := by omega
      simp [h, h1, Nat.xor_assoc]

/-- C3: for every offset and length, get_erase_size computes
sector_count = ceil(len / 0x1000), start_sector = offset / 0x1000,
head_sectors = min(16 - start_sector mod 16, sector_count), and returns
((sector_count+1)/2)*0x1000 when sector_count < 2*head_sectors and
(sector_count - head_sectors)*0x1000 otherwise. -/
theorem get_erase_size_formula :
    ∀ offset len : Nat,
      get_erase_size offset len =
        (let sector_count := (len + 0x1000 - 1) / 0x1000
         let start_sector := offset / 0x1000
         let head_sectors := min (16 - start_sector % 16) sector_count
         if sector_count < 2 * head_sectors then
           (sector_count + 1) / 2 * 0x1000
         else
           (sector_count - head_sectors) * 0x1000) :=
  fun _ _ => rfl

/-- C2 counterexample: the claimed value triple is false on the code;
get_erase_size 0 0x4000 is 0x2000 (not 0x4000) and
get_erase_size 0x1000 0x10000 is 0x8000 (not 0xF000). -/
theorem get_erase_size_claimed_values_false :
    ¬ (get_erase_size 0 0x1000 = 0x1000 ∧
       get_erase_size 0 0x4000 = 0x4000 ∧
       get_erase_size 0x1000 0x10000 = 0xF000) := by
  decide

/-- C2 (amended): get_erase_size(0, 0x1000) = 0x1000,
get_erase_size(0, 0x4000) = 0x2000, and
get_erase_size(0x1000, 0x10000) = 0x8000. -/
theorem get_erase_size_values :
    get_erase_size 0 0x1000 = 0x1000 ∧
    get_erase_size 0 0x4000 = 0x2000 ∧
    get_erase_size 0x1000 0x10000 = 0x8000 := by
  decide

/-- C6: for every data slice D, padding count K and padding byte P, the
checksum word block_command sends with a *_DATA command equals
0xEF XOR (XOR-fold of D) XOR (P if K is odd, else 0). -/
theorem block_command_checksum_law :
    ∀ (D : List Nat) (K P : Nat),
      block_command_checksum D K P =
        0xEF ^^^ checksum D 0 ^^^ (if K % 2 = 1 then P else 0) := by
  intro D K P
  show pad_checksum K P (checksum D CHECKSUM_INIT) = _
  rw [pad_checksum_eq_xor, checksum_eq_xor D CHECKSUM_INIT]
  rfl

/-- C9: timeout_for_size at size 1_000_000 is exactly 30 s for FlashBegin
and 40 s for FlashData, and for every size the result for these two opcodes
is at least the 3 s default timeout. -/
theorem timeout_for_size_scaling :
    Command.FlashBegin.timeout_for_size 1000000 = 30000 ∧
    Command.FlashData.timeout_for_size 1000000 = 40000 ∧
    ∀ size : Nat,
      DEFAULT_TIMEOUT_MS ≤ Command.FlashBegin.timeout_for_size size ∧
      DEFAULT_TIMEOUT_MS ≤ Command.FlashData.timeout_for_size size := by
  refine ⟨by decide, by decide, fun size => ⟨?_, ?_⟩⟩
  · exact le_max_left _ _
  · exact le_max_left _ _

/-- C8: FlashSize::from maps bytes 0x12..0x18 to the sizes 256KB..16MB,
maps 0xFF to the FlashRetry sentinel, and fails with UnsupportedFlash
carrying the byte on every other input byte. -/
theorem flash_size_decode :
    FlashSize.fromByte 0x12 = .ok .Flash256Kb ∧
    FlashSize.fromByte 0x13 = .ok .Flash512Kb ∧
    FlashSize.fromByte 0x14 = .ok .Flash1Mb ∧
    FlashSize.fromByte 0x15 = .ok .Flash2Mb ∧
    FlashSize.fromByte 0x16 = .ok .Flash4Mb ∧
    FlashSize.fromByte 0x17 = .ok .Flash8Mb ∧
    FlashSize.fromByte 0x18 = .ok .Flash16Mb ∧
    FlashSize.fromByte 0xFF = .ok .FlashRetry ∧
    ∀ b : Nat, b ≠ 0x12 → b ≠ 0x13 → b ≠ 0x14 → b ≠ 0x15 → b ≠ 0x16 →
      b ≠ 0x17 → b ≠ 0x18 → b ≠ 0xFF →
      FlashSize.fromByte b = .error (.UnsupportedFlash b) := by
  refine ⟨rfl, rfl, rfl, rfl, rfl, rfl, rfl, rfl, ?_⟩
  intro b h1 h2 h3 h4 h5 h6 h7 h8
  simp only [FlashSize.fromByte, if_neg h1, if_neg h2, if_neg h3, if_neg h4,
    if_neg h5, if_neg h6, if_neg h7, if_neg h8]

/-- C8 witness: the decode theorem applied at the unsupported byte 0x99. -/
theorem flash_size_decode_witness :
    FlashSize.fromByte 0x99 = .error (.UnsupportedFlash 0x99) :=
  flash_size_decode.2.2.2.2.2.2.2.2 0x99 (by decide) (by decide) (by decide)
    (by decide) (by decide) (by decide) (by decide) (by decide)

theorem nat_or_eq_zero {x y : Nat} (h : x ||| y = 0) : x = 0 ∧ y = 0 := by
  constructor <;> refine Nat.eq_of_testBit_eq fun i => ?_
  · have h2 := congrArg (fun n => Nat.testBit n i) h
    simp only [Nat.testBit_or, Nat.zero_testBit, Bool.or_eq_false_iff] at h2
    simp [h2.1]
  · have h2 := congrArg (fun n => Nat.testBit n i) h
    simp only [Nat.testBit_or, Nat.zero_testBit, Bool.or_eq_false_iff] at h2
    simp [h2.2]

theorem spi_attach_packed_eq_zero (p : SpiAttachParams)
    (h : (p.hd <<< 24) ||| (p.cs <<< 18) ||| (p.d <<< 12) ||| (p.q <<< 6) ||| p.clk = 0) :
    p = SpiAttachParams.default := by
  obtain ⟨clk, q, d, hd, cs⟩ := p
  obtain ⟨h1, hclk⟩ := nat_or_eq_zero h
  obtain ⟨h2, hq⟩ := nat_or_eq_zero h1
  obtain ⟨h3, hdz⟩ := nat_or_eq_zero h2
  obtain ⟨hhd, hcs⟩ := nat_or_eq_zero h3
  rw [Nat.shiftLeft_eq] at hhd hcs hdz hq
  have e4 : hd = 0 := by
    rcases Nat.mul_eq_zero.mp hhd with h9 | h9
    · exact h9
    · norm_num at h9
  have e5 : cs = 0 := by
    rcases Nat.mul_eq_zero.mp hcs with h9 | h9
    · exact h9
    · norm_num at h9
  have e3 : d = 0 := by
    rcases Nat.mul_eq_zero.mp hdz with h9 | h9
    · exact h9
    · norm_num at h9
  have e2 : q = 0 := by
    rcases Nat.mul_eq_zero.mp hq with h9 | h9
    · exact h9
    · norm_num at h9
  have e1 : clk = 0 := hclk
  subst e1 e2 e3 e4 e5
  rfl

/-- C7 counterexample: encoding (clk=6, q=17, d=8, hd=11, cs=16) does not
yield the little-endian bytes of 0x0B408246 claimed by the spec; the packed
word is (11<<24)|(16<<18)|(8<<12)|(17<<6)|6 = 0x0B408446. -/
theorem spi_attach_encode_claimed_bytes_false :
    SpiAttachParams.esp32_pico_d4.encode ≠ u32_le_bytes 0x0B408246 := by
  decide

/-- C7 (amended): encode of the all-zero parameter set yields five zero
bytes; any non-zero parameter set encodes as the little-endian 4-byte word
(hd<<24)|(cs<<18)|(d<<12)|(q<<6)|clk; encode of
(clk=6, q=17, d=8, hd=11, cs=16) yields the little-endian bytes of
0x0B408446. -/
theorem spi_attach_encode_spec :
    SpiAttachParams.default.encode = List.replicate 5 0 ∧
    (∀ p : SpiAttachParams, p ≠ SpiAttachParams.default →
      p.encode =
        u32_le_bytes ((p.hd <<< 24) ||| (p.cs <<< 18) ||| (p.d <<< 12) |||
          (p.q <<< 6) ||| p.clk)) ∧
    SpiAttachParams.esp32_pico_d4.encode = u32_le_bytes 0x0B408446 := by
  refine ⟨by decide, ?_, by decide⟩
  intro p hp
  unfold SpiAttachParams.encode
  rw [if_neg]
  intro h
  exact hp (spi_attach_packed_eq_zero p h)

/-- Rust slice::chunks(n): split a list into consecutive chunks of n
elements, the last chunk possibly shorter. slice::chunks panics on n = 0;
the model returns [] there, and every call site passes a positive constant. -/
def chunksOf (n : Nat) (l : List α) : List (List α) :=
  if h : l.length = 0 ∨ n = 0 then []
  else l.take n :: chunksOf n (l.drop n)
termination_by l.length
decreasing_by
  push_neg at h
  rw [List.length_drop]
  omega

theorem chunksOf_nil (n : Nat) : chunksOf n ([] : List α) = [] := by
  unfold chunksOf
  simp

theorem chunksOf_cons_of_ne_nil (n : Nat) (l : List α) (hl : l ≠ []) (hn : n ≠ 0) :
    chunksOf n l = l.take n :: chunksOf n (l.drop n) := by
  conv_lhs => unfold chunksOf
  rw [dif_neg]
  push_neg
  exact ⟨fun h0 => hl (List.eq_nil_of_length_eq_zero h0), hn⟩

/-- One packet of the bootloader conversation load_elf_to_ram produces. A
memData packet records the chunk's byte count (the length of the block
slice), the padding count, the padding byte and the sequence number that
Flasher::block_command is called with. -/
inductive Packet where
  | memBegin (size blocks block_size offset : Nat)
  | memData (size padding padding_byte sequence : Nat)
  | memEnd (no_entry entry : Nat)
deriving DecidableEq, Repr

/-- The per-segment body of Flasher::load_elf_to_ram: a begin_command with
(MemBegin, data.len(), block_count, MAX_RAM_BLOCK_SIZE, segment.addr),
then one block_command (MemData, block, block_padding, 0, i) per
MAX_RAM_BLOCK_SIZE chunk. -/
def load_segment_to_ram (data : List Nat) (addr : Nat) : List Packet :=
  let padding := 4 - data.length % 4
  let block_count := (data.length + padding + MAX_RAM_BLOCK_SIZE - 1) / MAX_RAM_BLOCK_SIZE
  Packet.memBegin data.length block_count MAX_RAM_BLOCK_SIZE addr ::
    ((chunksOf MAX_RAM_BLOCK_SIZE data).enum.map fun q =>
      Packet.memData q.2.length (if q.1 = block_count - 1 then padding else 0) 0 q.1)

/-- Flasher::load_elf_to_ram over the already-parsed RAM segments
(address, bytes) of the image: the per-segment streams in order, then
mem_finish's MemEnd with EntryParams (no_entry = (entry == 0), entry).
ELF parsing and the rom-segment check live in collaborator crates outside
this module. -/
def load_elf_to_ram (segments : List (Nat × List Nat)) (entry : Nat) : List Packet :=
  (segments.map fun s => load_segment_to_ram s.2 s.1).flatten ++
    [Packet.memEnd (if entry = 0 then 1 else 0) entry]

/-- The padding the source computes for a RAM segment of len bytes:
4 - len % 4 (which is 4, not 0, when len is a multiple of 4). -/
def ram_padding (len : Nat) : Nat := 4 - len % 4

/-- block_count = ceil((len + padding) / MAX_RAM_BLOCK_SIZE). -/
def ram_block_count (len : Nat) : Nat :=
  (len + ram_padding len + MAX_RAM_BLOCK_SIZE - 1) / MAX_RAM_BLOCK_SIZE

/-- Number of MAX_RAM_BLOCK_SIZE chunks of a len-byte segment:
ceil(len / MAX_RAM_BLOCK_SIZE). -/
def num_chunks (len : Nat) : Nat :=
  (len + MAX_RAM_BLOCK_SIZE - 1) / MAX_RAM_BLOCK_SIZE

/-- The RAM stream as the spec words describe it, indexed only by the
segment length: MEM_BEGIN(len, block_count, MAX_RAM_BLOCK_SIZE, addr),
then for each chunk index i a MEM_DATA whose size is the chunk's byte
count, whose sequence is i, whose padding byte is 0, and whose padding is
the computed padding exactly on index block_count - 1. -/
def ram_stream_spec (len addr : Nat) : List Packet :=
  Packet.memBegin len (ram_block_count len) MAX_RAM_BLOCK_SIZE addr ::
    ((List.range (num_chunks len)).map fun i =>
      Packet.memData (min MAX_RAM_BLOCK_SIZE (len - MAX_RAM_BLOCK_SIZE * i))
        (if i = ram_block_count len - 1 then ram_padding len else 0) 0 i)

theorem num_chunks_eq_succ (len : Nat) (h : len ≠ 0) :
    num_chunks len = num_chunks (len - MAX_RAM_BLOCK_SIZE) + 1 := by
  simp only [num_chunks, MAX_RAM_BLOCK_SIZE]
  omega

theorem chunksOf_enumFrom_map {β : Type} (f : Nat → Nat → β) :
    ∀ (n : Nat) (l : List Nat) (i : Nat), l.length ≤ n →
      (((chunksOf MAX_RAM_BLOCK_SIZE l).enumFrom i).map fun q => f q.1 q.2.length) =
        ((List.range (num_chunks l.length)).map fun j =>
          f (i + j) (min MAX_RAM_BLOCK_SIZE (l.length - MAX_RAM_BLOCK_SIZE * j))) := by
  intro n
  induction n with
  | zero =>
    intro l i hlen
    have hl : l = [] := List.eq_nil_of_length_eq_zero (Nat.le_zero.mp hlen)
    subst hl
    simp [chunksOf_nil, num_chunks, MAX_RAM_BLOCK_SIZE]
  | succ n ih =>
    intro l i hlen
    by_cases hl : l = []
    · subst hl
      simp [chunksOf_nil, num_chunks, MAX_RAM_BLOCK_SIZE]
    · have hpos : 0 < l.length := List.length_pos.mpr hl
      rw [chunksOf_cons_of_ne_nil _ _ hl (by simp [MAX_RAM_BLOCK_SIZE])]
      rw [List.enumFrom_cons, List.map_cons]
      have hlen2 : (l.drop MAX_RAM_BLOCK_SIZE).length ≤ n := by
        rw [List.length_drop]
        simp only [MAX_RAM_BLOCK_SIZE]
        omega
      rw [ih (l.drop MAX_RAM_BLOCK_SIZE) (i + 1) hlen2]
      rw [num_chunks_eq_succ l.length (by omega), List.range_succ_eq_map, List.map_cons]
      congr 1
      · simp [List.length_take]
      · rw [List.map_map, List.length_drop]
        refine List.map_congr_left fun j hj => ?_
        simp only [Function.comp_apply]
        have e1 : i + 1 + j = i + (j + 1) := by omega
        have e2 : l.length - MAX_RAM_BLOCK_SIZE - MAX_RAM_BLOCK_SIZE * j =
            l.length - MAX_RAM_BLOCK_SIZE * (j + 1) := by
          rw [Nat.sub_sub, Nat.mul_succ, Nat.add_comm]
        rw [e1, e2]

/-- The stream load_elf_to_ram emits for one segment coincides with the
length-indexed spec stream. -/
theorem load_segment_to_ram_eq (data : List Nat) (addr : Nat) :
    load_segment_to_ram data addr = ram_stream_spec data.length addr := by
  unfold load_segment_to_ram ram_stream_spec
  rw [List.enum_eq_enumFrom]
  have h := chunksOf_enumFrom_map
    (f := fun j m =>
      Packet.memData m
        (if j = ram_block_count data.length - 1 then ram_padding data.length else 0) 0 j)
    data.length data 0 le_rfl
  simp only [Nat.zero_add] at h
  exact congrArg _ h

/-- C1 counterexample: for a single 0x2000-byte segment the code puts
padding 4 (not 0) on the final MEM_DATA, because the source computes
padding = 4 - len % 4 without the claimed outer mod 4; the claimed
packet stream with padding 0 on both blocks is therefore not produced. -/
theorem ram_stream_claimed_padding_false :
    load_segment_to_ram (List.replicate 0x2000 0) 0x40100000 ≠
      [Packet.memBegin 0x2000 2 0x1800 0x40100000,
       Packet.memData 0x1800 0 0 0,
       Packet.memData 0x800 0 0 1] := by
  rw [load_segment_to_ram_eq, List.length_replicate]
  decide

/-- C1 (amended): for every RAM segment, the stream is MEM_BEGIN(len,
block_count, 0x1800, addr) followed by one MEM_DATA per 0x1800-byte chunk
with sequence = index and padding byte 0, where padding = 4 - len%4 (a
value in 1..4), block_count = ceil((len+padding)/0x1800), and exactly the
chunk with index block_count - 1 carries the padding; a single 0x2000-byte
segment yields MEM_BEGIN(0x2000, 2, 0x1800, 0x40100000), two MEM_DATA with
sequences 0 and 1 carrying paddings 0 and 4, then MEM_END(no_entry=0,
entry). -/
theorem ram_stream_spec_correct :
    (∀ (data : List Nat) (addr : Nat),
      load_segment_to_ram data addr = ram_stream_spec data.length addr) ∧
    load_elf_to_ram [(0x40100000, List.replicate 0x2000 0)] 0x40010000 =
      [Packet.memBegin 0x2000 2 0x1800 0x40100000,
       Packet.memData 0x1800 0 0 0,
       Packet.memData 0x800 4 0 1,
       Packet.memEnd 0 0x40010000] := by
  refine ⟨load_segment_to_ram_eq, ?_⟩
  show (load_segment_to_ram (List.replicate 0x2000 0) 0x40100000 ++ []) ++ _ = _
  rw [load_segment_to_ram_eq, List.length_replicate]
  decide

/-- The SPI peripheral register map the Chip collaborator injects
(chip::spi_registers() lives outside this module): addresses of usr, usr1,
usr2, w0 and cmd, plus the optional distinct MOSI/MISO length registers. -/
structure SpiRegisters where
  usr : Nat
  usr1 : Nat
  usr2 : Nat
  w0 : Nat
  cmd : Nat
  mosi_length : Option Nat
  miso_length : Option Nat
deriving DecidableEq, Repr

/-- u32::from_le_bytes over a zero-padded 4-byte chunk, as in the w0 window
loading loop of spi_command. -/
def le_word (bytes : List Nat) : Nat :=
  bytes.getD 0 0 ||| (bytes.getD 1 0 <<< 8) ||| (bytes.getD 2 0 <<< 16) |||
    (bytes.getD 3 0 <<< 24)

/-- The poll loop of spi_command. The source counts i upward and fails
once i > 10; here fuel counts the remaining retries downward from 10, so
at most 11 reads of the usr register happen. The argument k is the index
of the next read in the read oracle; on completion the index after the
final poll read is returned. -/
def spi_poll (reads : Nat → Nat) : Nat → Nat → Except Error Nat
  | k, 0 =>
    if reads k &&& (1 <<< 18) = 0 then .ok (k + 1) else .error .Timeout
  | k, fuel + 1 =>
    if reads k &&& (1 <<< 18) = 0 then .ok (k + 1) else spi_poll reads (k + 1) fuel

/-- The register writes spi_command issues before the poll loop, in
order: usr flags, usr2 command word, the transfer-length registers, the
w0 data window, and the cmd start bit. The reads oracle supplies the
values the two snapshot read_reg calls return (read indices 0 and 1). -/
def spi_pre_writes (regs : SpiRegisters) (command : Nat) (data : List Nat)
    (read_bits : Nat) : List (Nat × Nat) :=
  let flags := (1 <<< 31) ||| (if data = [] then 0 else 1 <<< 27) |||
    (if read_bits > 0 then 1 <<< 28 else 0)
  let lengths : List (Nat × Nat) :=
    match regs.mosi_length, regs.miso_length with
    | some mosi_data_length, some miso_data_length =>
      (if data = [] then [] else [(mosi_data_length, data.length * 8 - 1)]) ++
        (if read_bits > 0 then [(miso_data_length, read_bits - 1)] else [])
    | _, _ =>
      let mosi_mask := if data = [] then 0 else data.length * 8 - 1
      let miso_mask := if read_bits = 0 then 0 else read_bits - 1
      [(regs.usr1, (miso_mask <<< 8) ||| (mosi_mask <<< 17))]
  let window : List (Nat × Nat) :=
    if data = [] then [(regs.w0, 0)]
    else (chunksOf 4 data).enum.map fun q => (regs.w0 + q.1, le_word q.2)
  [(regs.usr, flags), (regs.usr2, (7 <<< 28) ||| command)] ++ lengths ++ window ++
    [(regs.cmd, 1 <<< 18)]

/-- Flasher::spi_command, with serial transport reads modelled by an
oracle from read index to returned u32 value: indices 0 and 1 are the usr
and usr2 snapshot reads, the poll loop reads from index 2 on, and on
completion the w0 result is read. Returned are the command's result and
the ordered trace of register writes; register reads and writes are
modelled as succeeding at the transport level (a transport failure aborts
the function by the question-mark operator at the same point, also without
reaching the restore writes). The source's assert preconditions
(read_bits < 32, data.len() < 64) do not affect the trace shape. -/
def spi_command (regs : SpiRegisters) (reads : Nat → Nat) (command : Nat)
    (data : List Nat) (read_bits : Nat) : Except Error Nat × List (Nat × Nat) :=
  let old_spi_usr := reads 0
  let old_spi_usr2 := reads 1
  let pre := spi_pre_writes regs command data read_bits
  match spi_poll reads 2 10 with
  | .error e => (.error e, pre)
  | .ok k =>
    (.ok (reads k), pre ++ [(regs.usr, old_spi_usr), (regs.usr2, old_spi_usr2)])

/-- C4 counterexample: with a device whose usr busy bit never clears
(snapshot reads return 5, every poll read keeps bit 18 set), spi_command
returns the poll-window Timeout yet its write trace never writes the
snapshot value 5 back to the usr register (address 10) or the usr2
register (address 12): the registers are left holding the modified
values, contradicting restore-on-every-error-path. -/
theorem spi_command_timeout_no_restore :
    (spi_command ⟨10, 11, 12, 13, 14, none, none⟩
        (fun k => if k < 2 then 5 else 1 <<< 18) 0x9f [] 24).1 = .error .Timeout ∧
    ((spi_command ⟨10, 11, 12, 13, 14, none, none⟩
        (fun k => if k < 2 then 5 else 1 <<< 18) 0x9f [] 24).2.filter
      fun w => (w.1 == 10 || w.1 == 12) && w.2 == 5) = [] := by
  constructor
  · rfl
  · rfl

/-- C4 (amended): whenever spi_command returns it has either succeeded,
in which case the write trace ends with the two writes restoring the
snapshotted usr and usr2 values, or it has failed with the poll-window
Timeout, in which case the trace is exactly the pre-poll writes and the
snapshot is not written back on this error path. -/
theorem spi_command_restore_dichotomy :
    ∀ (regs : SpiRegisters) (reads : Nat → Nat) (command : Nat)
      (data : List Nat) (read_bits : Nat),
      (∃ v, (spi_command regs reads command data read_bits).1 = .ok v ∧
        (spi_command regs reads command data read_bits).2 =
          spi_pre_writes regs command data read_bits ++
            [(regs.usr, reads 0), (regs.usr2, reads 1)]) ∨
      ((spi_command regs reads command data read_bits).1 = .error .Timeout ∧
        (spi_command regs reads command data read_bits).2 =
          spi_pre_writes regs command data read_bits) := by
  intro regs reads command data read_bits
  have hpoll : ∀ (fuel k : Nat), spi_poll reads k fuel = .error .Timeout ∨
      ∃ j, spi_poll reads k fuel = .ok j := by
    intro fuel
    induction fuel with
    | zero =>
      intro k
      unfold spi_poll
      by_cases hb : reads k &&& (1 <<< 18) = 0
      · exact Or.inr ⟨k + 1, by rw [if_pos hb]⟩
      · exact Or.inl (by rw [if_neg hb])
    | succ fuel ih =>
      intro k
      unfold spi_poll
      by_cases hb : reads k &&& (1 <<< 18) = 0
      · exact Or.inr ⟨k + 1, by rw [if_pos hb]⟩
      · rw [if_neg hb]
        exact ih (k + 1)
  unfold spi_command
  rcases hpoll 10 2 with h | ⟨j, h⟩
  · rw [h]
    exact Or.inr ⟨rfl, rfl⟩
  · rw [h]
    exact Or.inl ⟨reads j, rfl, rfl⟩

/-- A decoded response frame as connection.read_response() yields it
(crate::connection): the returned opcode byte, the status byte and the
error byte. read_response returns None when no frame is available. -/
structure CommandResponse where
  return_op : Nat
  status : Nat
  error : Nat
deriving DecidableEq, Repr

/-- The inner response loop of Flasher::sync (`for _ in 0..100`), with
read_response modelled by an oracle from read index to its result. A frame
whose returned opcode is SYNC terminates the loop: with status == 1 it
fails with RomError(error), otherwise the loop breaks; any other frame
(or None) is skipped. On break or after 100 reads the index of the next
unconsumed read is returned. -/
def sync_read_loop (reads : Nat → Except Error (Option CommandResponse)) :
    Nat → Nat → Except Error Nat
  | k, 0 => .ok k
  | k, fuel + 1 =>
    match reads k with
    | .error e => .error e
    | .ok (some response) =>
      if response.return_op = Command.opcode .Sync then
        if response.status = 1 then .error (.RomError response.error)
        else .ok (k + 1)
      else sync_read_loop reads (k + 1) fuel
    | .ok none => sync_read_loop reads (k + 1) fuel

/-- The drain loop after the sync storm (`for _ in 0..700`): read until
some frame arrives or 700 reads pass; a read error propagates. -/
def sync_drain (reads : Nat → Except Error (Option CommandResponse)) :
    Nat → Nat → Except Error Unit
  | _, 0 => .ok ()
  | k, fuel + 1 =>
    match reads k with
    | .error e => .error e
    | .ok (some _) => .ok ()
    | .ok none => sync_drain reads (k + 1) fuel

/-- Flasher::sync: write the 36-byte sync payload (its write_command
outcome is the write_res argument), run the inner response loop, then
drain up to 700 further responses, all reads taken in order from the same
oracle. -/
def sync (write_res : Except Error Unit)
    (reads : Nat → Except Error (Option CommandResponse)) : Except Error Unit :=
  match write_res with
  | .error e => .error e
  | .ok _ =>
    match sync_read_loop reads 0 100 with
    | .error e => .error e
    | .ok k => sync_drain reads k 700

/-- The ten-attempt loop of Flasher::start_connection. Attempt n flushes
(flush_res n), then runs sync with that attempt's write outcome and read
oracle; `if self.sync().is_ok()` returns success, and otherwise the next
attempt starts. After ten failed attempts: ConnectionFailed. -/
def start_connection_loop (flush_res : Nat → Except Error Unit)
    (write_res : Nat → Except Error Unit)
    (reads : Nat → Nat → Except Error (Option CommandResponse)) :
    Nat → Nat → Except Error Unit
  | _, 0 => .error .ConnectionFailed
  | n, fuel + 1 =>
    match flush_res n with
    | .error e => .error e
    | .ok _ =>
      match sync (write_res n) (reads n) with
      | .ok _ => .ok ()
      | .error _ => start_connection_loop flush_res write_res reads (n + 1) fuel

/-- Flasher::start_connection: reset_to_flash, then up to ten sync
attempts. -/
def start_connection (reset_res : Except Error Unit)
    (flush_res : Nat → Except Error Unit) (write_res : Nat → Except Error Unit)
    (reads : Nat → Nat → Except Error (Option CommandResponse)) :
    Except Error Unit :=
  match reset_res with
  | .error e => .error e
  | .ok _ => start_connection_loop flush_res write_res reads 0 10

/-- C5 counterexample: a device that answers every sync attempt with a
SYNC frame carrying status == 1 (ROM error code 5) makes each sync call
fail with RomError 5, yet start_connection swallows that error on all ten
attempts and returns ConnectionFailed instead of surfacing the RomError
unchanged. -/
theorem start_connection_rom_error_swallowed :
    start_connection (.ok ()) (fun _ => .ok ()) (fun _ => .ok ())
        (fun _ k => if k = 0 then .ok (some ⟨8, 1, 5⟩) else .ok none) =
      .error .ConnectionFailed ∧
    Error.ConnectionFailed ≠ Error.RomError 5 := by
  constructor
  · rfl
  · decide

/-- C5 (amended): inside sync, a SYNC-opcode frame with status == 1 makes
sync fail with RomError(error); start_connection catches every error a
sync attempt raises, not only Timeout, retrying up to ten attempts and
returning ConnectionFailed when all ten fail; errors outside the sync
storm, such as a flush failure, surface to the caller unchanged. -/
theorem start_connection_retry_policy :
    (∀ (reads : Nat → Except Error (Option CommandResponse)) (r : CommandResponse),
      reads 0 = .ok (some r) → r.return_op = Command.opcode .Sync → r.status = 1 →
      sync (.ok ()) reads = .error (.RomError r.error)) ∧
    (∀ (flush_res write_res : Nat → Except Error Unit)
       (reads : Nat → Nat → Except Error (Option CommandResponse)),
      (∀ n, flush_res n = .ok ()) →
      (∀ n, ∃ e, sync (write_res n) (reads n) = .error e) →
      start_connection (.ok ()) flush_res write_res reads =
        .error .ConnectionFailed) ∧
    (∀ (flush_res write_res : Nat → Except Error Unit)
       (reads : Nat → Nat → Except Error (Option CommandResponse)) (e : Error),
      flush_res 0 = .error e →
      start_connection (.ok ()) flush_res write_res reads = .error e) := by
  refine ⟨?_, ?_, ?_⟩
  · intro reads r h0 hop hst
    have hloop : sync_read_loop reads 0 100 = .error (.RomError r.error) := by
      unfold sync_read_loop
      rw [h0]
      simp [hop, hst]
    have hsync : sync (.ok ()) reads =
        match sync_read_loop reads 0 100 with
        | Except.error e => Except.error e
        | Except.ok k => sync_drain reads k 700 := rfl
    rw [hsync, hloop]
  · intro flush_res write_res reads hflush hsync
    show start_connection_loop flush_res write_res reads 0 10 = _
    have main : ∀ (fuel n : Nat),
        start_connection_loop flush_res write_res reads n fuel =
          .error .ConnectionFailed := by
      intro fuel
      induction fuel with
      | zero => intro n; rfl
      | succ fuel ih =>
        intro n
        obtain ⟨e, he⟩ := hsync n
        unfold start_connection_loop
        rw [hflush n, he]
        exact ih (n + 1)
    exact main 10 0
  · intro flush_res write_res reads e hflush
    show start_connection_loop flush_res write_res reads 0 10 = _
    unfold start_connection_loop
    rw [hflush]

/-- C5 witness: the retry-policy theorem applied to a concrete device
trace: a status-1 SYNC frame with error code 7 makes sync return
RomError 7, and a flush failure on the first attempt surfaces from
start_connection unchanged. -/
theorem start_connection_retry_policy_witness :
    sync (.ok ())
        (fun k => if k = 0 then .ok (some ⟨8, 1, 7⟩) else .ok none) =
      .error (.RomError 7) ∧
    start_connection (.ok ()) (fun _ => .error .Timeout) (fun _ => .ok ())
        (fun _ _ => .ok none) = .error .Timeout :=
  ⟨start_connection_retry_policy.1
      (fun k => if k = 0 then .ok (some ⟨8, 1, 7⟩) else .ok none)
      ⟨8, 1, 7⟩ rfl rfl rfl,
    start_connection_retry_policy.2.2 (fun _ => .error .Timeout) (fun _ => .ok ())
      (fun _ _ => .ok none) .Timeout rfl⟩

/-- The two Flasher fields spi_autodetect and flash_detect read or assign. -/
structure FlasherState where
  flash_size : FlashSize
  spi_params : SpiAttachParams
deriving DecidableEq, Repr

/-- Flasher::flash_detect, with the JEDEC-ID spi_command(0x9f, [], 24)
outcome passed in as spi_res. On a u32 flash id, size_id = flash_id >> 16
and `size_id as u8` truncates to a byte; a FlashSize::from failure
propagates by the question-mark operator before self.flash_size is
assigned, while on success flash_size is assigned (the FlashRetry sentinel
included) and the returned Bool says whether the size is not FlashRetry. -/
def flash_detect (st : FlasherState) (spi_res : Except Error Nat) :
    Except Error (Bool × FlasherState) :=
  match spi_res with
  | .error e => .error e
  | .ok flash_id =>
    match FlashSize.fromByte ((flash_id >>> 16) % 256) with
    | .error e => .error e
    | .ok size => .ok (decide (size ≠ .FlashRetry), { st with flash_size := size })

/-- The candidate loop of Flasher::spi_autodetect over the remaining
(index, params) pairs. For candidate i, enable_res i is the enable_flash
outcome and spi_res i the spi_command JEDEC read outcome inside
flash_detect. Returned are the loop's result, the Flasher state at exit,
and the list of candidate indices that were attempted, in order. -/
def spi_autodetect_loop (enable_res : Nat → Except Error Unit)
    (spi_res : Nat → Except Error Nat) :
    FlasherState → List (Nat × SpiAttachParams) → List Nat →
      Except Error Unit × FlasherState × List Nat
  | st, [], attempts => (.error (.UnsupportedFlash 0xFF), st, attempts)
  | st, (i, params) :: rest, attempts =>
    match enable_res i with
    | .error e => (.error e, st, attempts ++ [i])
    | .ok _ =>
      match flash_detect st (spi_res i) with
      | .error e => (.error e, st, attempts ++ [i])
      | .ok (true, st2) => (.ok (), { st2 with spi_params := params }, attempts ++ [i])
      | .ok (false, st2) => spi_autodetect_loop enable_res spi_res st2 rest (attempts ++ [i])

/-- Flasher::spi_autodetect: walk TRY_SPI_PARAMS; when none of the
candidates detects a flash size, fail with
UnsupportedFlash(FlashSize::FlashRetry as u8) = UnsupportedFlash 0xFF. -/
def spi_autodetect (st : FlasherState) (enable_res : Nat → Except Error Unit)
    (spi_res : Nat → Except Error Nat) :
    Except Error Unit × FlasherState × List Nat :=
  spi_autodetect_loop enable_res spi_res st (TRY_SPI_PARAMS.enum) []

/-- C10: if the first candidate's enable succeeds and its JEDEC read
returns a u32 whose high byte b is neither a supported size code
(0x12..0x18) nor the 0xFF retry sentinel, spi_autodetect returns
UnsupportedFlash b at once: the attempted-candidate list is just [0], so
the remaining TRY_SPI_PARAMS candidate is never tried, and the exit state
(spi_params field included) is exactly the prior state. -/
theorem spi_autodetect_unsupported_aborts :
    ∀ (st : FlasherState) (enable_res : Nat → Except Error Unit)
      (spi_res : Nat → Except Error Nat) (v : Nat),
      enable_res 0 = .ok () → spi_res 0 = .ok v →
      ((v >>> 16) % 256 ≠ 0x12) → ((v >>> 16) % 256 ≠ 0x13) →
      ((v >>> 16) % 256 ≠ 0x14) → ((v >>> 16) % 256 ≠ 0x15) →
      ((v >>> 16) % 256 ≠ 0x16) → ((v >>> 16) % 256 ≠ 0x17) →
      ((v >>> 16) % 256 ≠ 0x18) → ((v >>> 16) % 256 ≠ 0xFF) →
      spi_autodetect st enable_res spi_res =
        (.error (.UnsupportedFlash ((v >>> 16) % 256)), st, [0]) := by
  intro st enable_res spi_res v hen hspi h1 h2 h3 h4 h5 h6 h7 h8
  have hfrom : FlashSize.fromByte ((v >>> 16) % 256) =
      .error (.UnsupportedFlash ((v >>> 16) % 256)) := by
    simp only [FlashSize.fromByte, if_neg h1, if_neg h2, if_neg h3, if_neg h4,
      if_neg h5, if_neg h6, if_neg h7, if_neg h8]
  have hdet : flash_detect st (spi_res 0) =
      .error (.UnsupportedFlash ((v >>> 16) % 256)) := by
    rw [flash_detect.eq_def, hspi]
    simp only [hfrom]
  show spi_autodetect_loop enable_res spi_res st
      [(0, SpiAttachParams.default), (1, SpiAttachParams.esp32_pico_d4)] [] = _
  rw [spi_autodetect_loop, hen]
  simp only [hdet]
  rfl

/-- C10 witness: the theorem applied to a device whose JEDEC id is
0x205678, so the high byte is the unsupported 0x20; the second candidate
is never attempted and the state survives unchanged. -/
theorem spi_autodetect_unsupported_aborts_witness :
    spi_autodetect ⟨.Flash4Mb, SpiAttachParams.default⟩ (fun _ => .ok ())
        (fun _ => .ok 0x205678) =
      (.error (.UnsupportedFlash 0x20), ⟨.Flash4Mb, SpiAttachParams.default⟩, [0]) :=
  spi_autodetect_unsupported_aborts ⟨.Flash4Mb, SpiAttachParams.default⟩
    (fun _ => .ok ()) (fun _ => .ok 0x205678) 0x205678 rfl rfl
    (by decide) (by decide) (by decide) (by decide) (by decide) (by decide)
    (by decide) (by decide)

/-- C7 witness: the encode theorem applied at the esp32_pico_d4 parameter
set, which is non-zero. -/
theorem spi_attach_encode_spec_witness :
    SpiAttachParams.esp32_pico_d4.encode =
      u32_le_bytes ((SpiAttachParams.esp32_pico_d4.hd <<< 24) |||
        (SpiAttachParams.esp32_pico_d4.cs <<< 18) |||
        (SpiAttachParams.esp32_pico_d4.d <<< 12) |||
        (SpiAttachParams.esp32_pico_d4.q <<< 6) |||
        SpiAttachParams.esp32_pico_d4.clk) :=
  spi_attach_encode_spec.2.1 SpiAttachParams.esp32_pico_d4 (by decide)

end Espflash
